import Mathlib

/-!
Verification of the shazam bridge interface (src/src-tauri/src/shazam_bridge.h).

The repository ships only the C header declaring the bridge surface:
event-kind constants, the callback type, and the operations
`shazam_bridge_create`, `shazam_bridge_start`, `shazam_bridge_feed`,
`shazam_bridge_stop`, `shazam_bridge_destroy`, `shazam_bridge_free_error`.
The implementation behind those declarations is not part of the sources,
so the session state machine, the audio-feed validation and the event
dispatcher are modelled here from the specification, while the event-kind
constants, the callback argument layout and the argument types (uint32_t
counts, 32-bit float samples modelled as rationals) come from the header.
-/

/-- Lifecycle states of a session handle.
Modelled from the spec: state machine
Created → Listening → Stopped → Listening → … → Destroyed (terminal). -/
inductive SessionState where
  | Created
  | Listening
  | Stopped
  | Destroyed
deriving DecidableEq, Repr

/-- A matcher verdict: the terminal outcome of one recognition attempt.
Modelled from the spec: Match{title, artist, artwork, two store links},
NoMatch, or Error{message}. -/
inductive Verdict where
  | Match (title artist artwork_url apple_music_url web_url : String)
  | NoMatch
  | Error (message : String)
deriving DecidableEq, Repr

/-- Event-kind tags from the header enum (shazam_bridge.h, lines 10-14). -/
def SHAZAM_BRIDGE_EVENT_MATCH : Int := 1

/-- Event-kind tag for a no-match verdict (shazam_bridge.h). -/
def SHAZAM_BRIDGE_EVENT_NO_MATCH : Int := 2

/-- Event-kind tag for an internal-error verdict (shazam_bridge.h). -/
def SHAZAM_BRIDGE_EVENT_ERROR : Int := 3

/-- One callback invocation, mirroring the argument list of
`shazam_bridge_callback_t` in the header: an event-kind tag followed by the
text fields, each `Option String` standing for a possibly-null
`const char *`. The opaque `user_data` pointer is passed through unchanged
and carries no information for the properties below, so it is omitted. -/
structure CallbackInvocation where
  event_type : Int
  title : Option String
  artist : Option String
  artwork_url : Option String
  apple_music_url : Option String
  web_url : Option String
  error_message : Option String
deriving DecidableEq, Repr

/-- The tagged payload handed to the callback for a verdict.
Modelled from the spec: unused fields for a given event kind are passed as
absent/null rather than empty strings. -/
def payloadOf : Verdict → CallbackInvocation
  | Verdict.Match t a art amu web =>
      { event_type := SHAZAM_BRIDGE_EVENT_MATCH
        title := some t
        artist := some a
        artwork_url := some art
        apple_music_url := some amu
        web_url := some web
        error_message := none }
  | Verdict.NoMatch =>
      { event_type := SHAZAM_BRIDGE_EVENT_NO_MATCH
        title := none
        artist := none
        artwork_url := none
        apple_music_url := none
        web_url := none
        error_message := none }
  | Verdict.Error m =>
      { event_type := SHAZAM_BRIDGE_EVENT_ERROR
        title := none
        artist := none
        artwork_url := none
        apple_music_url := none
        web_url := none
        error_message := some m }

/-- Two verdicts present the same payload case (Match, NoMatch, or Error). -/
def sameCase : Verdict → Verdict → Prop
  | Verdict.Match _ _ _ _ _, Verdict.Match _ _ _ _ _ => True
  | Verdict.NoMatch, Verdict.NoMatch => True
  | Verdict.Error _, Verdict.Error _ => True
  | _, _ => False

/-- A session handle's state, with ghost fields recording the observable
history needed to state the dispatcher properties.
Modelled from the spec: one attempt per Listening-to-Stopped span, attempts
numbered by the `start` that opened them.
- `st`: lifecycle state.
- `curAttempt`: number of `start` calls so far; the current attempt's id.
- `emitted`: verdicts the external matcher has produced, by attempt id
  (the matcher produces at most one verdict per attempt).
- `fired`: log of callback invocations, tagged with their attempt id.
- `completed`: ghost list of attempts whose verdict arrived while the
  session was still listening on them (completed, non-cancelled attempts).
- `cancelled`: ghost list of attempts cut off by `stop`/`destroy` before
  their verdict arrived.
- `forwarded`: audio chunks forwarded to the external matcher. -/
structure Bridge where
  st : SessionState
  curAttempt : Nat
  emitted : List (Nat × Verdict)
  fired : List (Nat × CallbackInvocation)
  completed : List Nat
  cancelled : List Nat
  forwarded : List (List Rat)
deriving DecidableEq, Repr

/-- A freshly created session handle. -/
def initBridge : Bridge :=
  { st := SessionState.Created
    curAttempt := 0
    emitted := []
    fired := []
    completed := []
    cancelled := []
    forwarded := [] }

/-- Error message used when an operation receives a null handle. -/
def nullHandleMsg : String := "shazam bridge handle is null"

/-- Error message when `create` gets a null callback. -/
def nullCallbackMsg : String := "callback must not be null"

/-- Error message when the external matcher cannot be initialized. -/
def matcherInitFailedMsg : String := "failed to initialize the external matcher"

/-- Error message when `start` is called on a handle already listening. -/
def alreadyListeningMsg : String := "shazam bridge is already listening"

/-- Error message when the external matcher rejects `start`. -/
def matcherStartRejectedMsg : String := "external matcher rejected start"

/-- Error message when an operation is attempted on a destroyed handle. -/
def destroyedMsg : String := "shazam bridge has been destroyed"

/-- Error message when `feed` is called outside the Listening state. -/
def notListeningMsg : String := "shazam bridge is not listening"

/-- Malformed-input error: null sample buffer. -/
def nullBufferMsg : String := "sample buffer is null"

/-- Malformed-input error: zero frame count. -/
def badFrameCountMsg : String := "frame count must be positive"

/-- Malformed-input error: channel count outside 1 or 2. -/
def badChannelsMsg : String := "unsupported channel count"

/-- Malformed-input error: non-positive sample rate. -/
def badRateMsg : String := "sample rate must be positive"

/-- Error message when the matcher rejects the channel/rate combination. -/
def matcherFeedRejectedMsg : String := "matcher does not support this channel or rate combination"

/-- Arguments of a `feed` call, mirroring `shazam_bridge_feed` in the
header: `samples` is a possibly-null buffer of 32-bit float PCM samples
(values embedded as rationals), `frame_count` and `channels` are `uint32_t`
values (embedded as naturals below 2^32), `sample_rate` is a double
(embedded as a rational). -/
structure FeedArgs where
  samples : Option (List Rat)
  frame_count : Nat
  channels : Nat
  sample_rate : Rat
deriving DecidableEq, Repr

/-- The number of values of C type uint32_t: frame and channel counts lie
below this bound. -/
def uint32Bound : Nat := 2 ^ 32

/-- Validation of the frame count. Modelled from the spec: frame_count > 0. -/
def frameCountOk (frame_count : Nat) : Bool :=
  decide (0 < frame_count)

/-- Validation of the channel count. Modelled from the spec: the channel
count must be 1 or 2. -/
def channelsOk (channels : Nat) : Bool :=
  channels == 1 || channels == 2

/-- Validation of the sample rate. Modelled from the spec: sample_rate > 0. -/
def rateOk (sample_rate : Rat) : Bool :=
  decide (0 < sample_rate)

/-- A feed buffer is well formed when every input constraint of the spec's
feed contract holds: non-null buffer, positive frame count, one or two
channels, positive sample rate. -/
def feedValid (a : FeedArgs) : Bool :=
  a.samples.isSome && frameCountOk a.frame_count && channelsOk a.channels && rateOk a.sample_rate

/-- Core of `shazam_bridge_start` on a non-null handle.
Modelled from the spec: succeeds only from Created or Stopped, transitions
to Listening and opens a fresh attempt; fails if already Listening, if the
handle was destroyed, or if the external matcher rejects the start
(`matcher_ok` is that environment input). Returns the updated handle, the
success flag and the error string. -/
def start_core (b : Bridge) (matcher_ok : Bool) : Bridge × Bool × Option String :=
  match b.st with
  | SessionState.Created =>
      if matcher_ok then
        ({ b with st := SessionState.Listening, curAttempt := b.curAttempt + 1 }, true, none)
      else (b, false, some matcherStartRejectedMsg)
  | SessionState.Stopped =>
      if matcher_ok then
        ({ b with st := SessionState.Listening, curAttempt := b.curAttempt + 1 }, true, none)
      else (b, false, some matcherStartRejectedMsg)
  | SessionState.Listening => (b, false, some alreadyListeningMsg)
  | SessionState.Destroyed => (b, false, some destroyedMsg)

/-- Core of `shazam_bridge_feed` on a non-null handle.
Modelled from the spec: the handle must be Listening, then the buffer is
validated in the contract's order (buffer non-null, frame_count > 0,
channels 1 or 2, sample_rate > 0); a valid buffer is forwarded to the
external matcher unless the matcher rejects the channel/rate combination
(`matcher_accepts` is that environment input). No resampling or conversion
ever happens: a rejected call forwards nothing and leaves the handle
unchanged. -/
def feed_core (b : Bridge) (a : FeedArgs) (matcher_accepts : Bool) : Bridge × Bool × Option String :=
  if b.st = SessionState.Listening then
    if a.samples.isSome then
      if frameCountOk a.frame_count then
        if channelsOk a.channels then
          if rateOk a.sample_rate then
            if matcher_accepts then
              ({ b with forwarded := a.samples.getD [] :: b.forwarded }, true, none)
            else (b, false, some matcherFeedRejectedMsg)
          else (b, false, some badRateMsg)
        else (b, false, some badChannelsMsg)
      else (b, false, some badFrameCountMsg)
    else (b, false, some nullBufferMsg)
  else if b.st = SessionState.Destroyed then (b, false, some destroyedMsg)
  else (b, false, some notListeningMsg)

/-- Core of `shazam_bridge_stop` on a non-null handle.
Modelled from the spec: valid from any non-terminal state, transitions to
Stopped, never fails, idempotent; if the current attempt's verdict has not
arrived yet the attempt is cancelled, so its eventual verdict will be
suppressed. On a destroyed handle no operation is valid, so nothing
happens. -/
def stop_core (b : Bridge) : Bridge :=
  match b.st with
  | SessionState.Listening =>
      { b with st := SessionState.Stopped
               cancelled :=
                 if b.curAttempt ∈ b.emitted.map Prod.fst then b.cancelled
                 else b.curAttempt :: b.cancelled }
  | SessionState.Created => { b with st := SessionState.Stopped }
  | SessionState.Stopped => { b with st := SessionState.Stopped }
  | SessionState.Destroyed => b

/-- Core of `shazam_bridge_destroy` on a non-null handle.
Modelled from the spec: valid from any state, terminal; like `stop` it
cancels a pending attempt so its late verdict is suppressed. -/
def destroy_core (b : Bridge) : Bridge :=
  match b.st with
  | SessionState.Listening =>
      { b with st := SessionState.Destroyed
               cancelled :=
                 if b.curAttempt ∈ b.emitted.map Prod.fst then b.cancelled
                 else b.curAttempt :: b.cancelled }
  | SessionState.Created => { b with st := SessionState.Destroyed }
  | SessionState.Stopped => { b with st := SessionState.Destroyed }
  | SessionState.Destroyed => b

/-- The external matcher produces the verdict `v` for attempt `i`, and the
event dispatcher reacts.
Modelled from the spec: the matcher emits at most one verdict per started
attempt (hence the guard on `emitted`); if the session is still Listening
on attempt `i` the dispatcher invokes the callback once with the tagged
payload and the attempt completes; otherwise (the attempt was stopped,
destroyed, or superseded) the verdict is suppressed and no callback
fires. -/
def matcher_verdict (b : Bridge) (i : Nat) (v : Verdict) : Bridge :=
  if 1 ≤ i ∧ i ≤ b.curAttempt ∧ i ∉ b.emitted.map Prod.fst then
    if b.st = SessionState.Listening ∧ i = b.curAttempt then
      { b with emitted := (i, v) :: b.emitted
               fired := (i, payloadOf v) :: b.fired
               completed := i :: b.completed }
    else { b with emitted := (i, v) :: b.emitted }
  else b

/-- Public `shazam_bridge_create`: registers the callback and builds a
fresh handle. Modelled from the spec: requires a non-null callback
(`callback_nonnull`); fails with an error string when the external matcher
cannot be initialized (`matcher_init_ok` is that environment input). -/
def shazam_bridge_create (callback_nonnull : Bool) (matcher_init_ok : Bool) :
    Option Bridge × Option String :=
  if callback_nonnull then
    if matcher_init_ok then (some initBridge, none)
    else (none, some matcherInitFailedMsg)
  else (none, some nullCallbackMsg)

/-- Public `shazam_bridge_start` on a possibly-null handle. -/
def shazam_bridge_start (bridge : Option Bridge) (matcher_ok : Bool) :
    Option Bridge × Bool × Option String :=
  match bridge with
  | none => (none, false, some nullHandleMsg)
  | some b =>
      let r := start_core b matcher_ok
      (some r.1, r.2.1, r.2.2)

/-- Public `shazam_bridge_feed` on a possibly-null handle. -/
def shazam_bridge_feed (bridge : Option Bridge) (a : FeedArgs) (matcher_accepts : Bool) :
    Option Bridge × Bool × Option String :=
  match bridge with
  | none => (none, false, some nullHandleMsg)
  | some b =>
      let r := feed_core b a matcher_accepts
      (some r.1, r.2.1, r.2.2)

/-- Public `shazam_bridge_stop` on a possibly-null handle; returns void in
the header, so only the updated handle is produced. -/
def shazam_bridge_stop (bridge : Option Bridge) : Option Bridge :=
  match bridge with
  | none => none
  | some b => some (stop_core b)

/-- Public `shazam_bridge_destroy` on a possibly-null handle. -/
def shazam_bridge_destroy (bridge : Option Bridge) : Option Bridge :=
  match bridge with
  | none => none
  | some b => some (destroy_core b)

/-- The error channel's release operation `shazam_bridge_free_error`,
acting on the set of live error-string allocations.
Modelled from the spec: releasing a null handle is a no-op; releasing an
allocated string removes it from the live set. -/
def shazam_bridge_free_error (error_message : Option String) (allocated : List String) :
    List String :=
  match error_message with
  | none => allocated
  | some e => allocated.erase e

/-- One step of the whole system: an API call by the caller or a verdict
produced by the external matcher. -/
inductive Op where
  | start (matcher_ok : Bool)
  | feed (a : FeedArgs) (matcher_accepts : Bool)
  | stop
  | destroy
  | verdict (i : Nat) (v : Verdict)
deriving DecidableEq, Repr

/-- Effect of one operation on a session handle. -/
def step (b : Bridge) : Op → Bridge
  | Op.start ok => (start_core b ok).1
  | Op.feed a acc => (feed_core b a acc).1
  | Op.stop => stop_core b
  | Op.destroy => destroy_core b
  | Op.verdict i v => matcher_verdict b i v

/-- The handle reached by running a sequence of operations from creation. -/
def run (ops : List Op) : Bridge :=
  ops.foldl step initBridge

/-- Number of callback invocations recorded for attempt `i`. -/
def firedCountFor (b : Bridge) (i : Nat) : Nat :=
  List.count i (b.fired.map Prod.fst)

/-- A handle that has been started once and is listening on attempt 1. -/
def listeningBridge : Bridge := (start_core initBridge true).1

/-- A feed buffer with three channels and otherwise valid fields. -/
def threeChannelArgs : FeedArgs :=
  { samples := some [0], frame_count := 1, channels := 3, sample_rate := 44100 }

/-- A well-formed one-channel 44100 Hz feed buffer. -/
def validArgs : FeedArgs :=
  { samples := some [0], frame_count := 1, channels := 1, sample_rate := 44100 }

/-- A trace that starts attempt 1 and lets the matcher complete it. -/
def demoCompleteTrace : List Op :=
  [Op.start true, Op.verdict 1 (Verdict.Error "recognition failed internally")]

/-- A trace that starts attempt 1 and stops before any verdict. -/
def demoCancelTrace : List Op := [Op.start true, Op.stop]

/-- The matcher's late verdict for the attempt cancelled above. -/
def demoLateVerdict : List Op := [Op.verdict 1 Verdict.NoMatch]

/-- The failure convention of a fallible operation returning an updated
handle, a success flag and an error string: the error string is set exactly
on failure and is never empty. -/
def errorConvention (r : Bridge × Bool × Option String) : Prop :=
  (r.2.1 = true → r.2.2 = none) ∧
  (r.2.1 = false → ∃ s, r.2.2 = some s ∧ s ≠ "")

/-- Invariant of every reachable session handle, tying the callback log to
the ghost bookkeeping of completed and cancelled attempts. -/
structure BridgeInv (b : Bridge) : Prop where
  fired_eq : b.fired.map Prod.fst = b.completed
  completed_sub : ∀ j ∈ b.completed, j ∈ b.emitted.map Prod.fst
  completed_nodup : b.completed.Nodup
  cancelled_le : ∀ j ∈ b.cancelled, j ≤ b.curAttempt
  cancelled_not_cur : ∀ j ∈ b.cancelled, ¬(b.st = SessionState.Listening ∧ b.curAttempt = j)
  cancelled_not_completed : ∀ j ∈ b.cancelled, j ∉ b.completed
  fired_payload : ∀ p ∈ b.fired, ∃ v, (p.1, v) ∈ b.emitted ∧ p.2 = payloadOf v

/-- C8: calling the error channel's release operation with a null pointer
is a no-op — it returns normally and leaves the set of live allocations
unchanged. -/
theorem free_error_null_is_noop :
    ∀ allocated : List String, shazam_bridge_free_error none allocated = allocated := by
  intro allocated
  rfl

/-- C9: the event-kind tags are the three pairwise-distinct constants
SHAZAM_BRIDGE_EVENT_MATCH = 1, SHAZAM_BRIDGE_EVENT_NO_MATCH = 2 and
SHAZAM_BRIDGE_EVENT_ERROR = 3, and the event_type of a callback payload
alone determines which payload case (Match, NoMatch or Error) is active. -/
theorem event_tags_distinct_and_determine_case :
    (SHAZAM_BRIDGE_EVENT_MATCH = 1 ∧ SHAZAM_BRIDGE_EVENT_NO_MATCH = 2 ∧
      SHAZAM_BRIDGE_EVENT_ERROR = 3) ∧
    (SHAZAM_BRIDGE_EVENT_MATCH ≠ SHAZAM_BRIDGE_EVENT_NO_MATCH ∧
      SHAZAM_BRIDGE_EVENT_MATCH ≠ SHAZAM_BRIDGE_EVENT_ERROR ∧
      SHAZAM_BRIDGE_EVENT_NO_MATCH ≠ SHAZAM_BRIDGE_EVENT_ERROR) ∧
    (∀ v w : Verdict, (payloadOf v).event_type = (payloadOf w).event_type → sameCase v w) := by
  refine ⟨⟨rfl, rfl, rfl⟩, ⟨by decide, by decide, by decide⟩, ?_⟩
  intro v w h
  cases v <;> cases w <;> (try exact trivial) <;>
    simp [payloadOf, SHAZAM_BRIDGE_EVENT_MATCH, SHAZAM_BRIDGE_EVENT_NO_MATCH,
      SHAZAM_BRIDGE_EVENT_ERROR] at h

/-- Witness for C9 at a concrete pair of verdicts. -/
theorem event_tags_witness : sameCase Verdict.NoMatch Verdict.NoMatch :=
  event_tags_distinct_and_determine_case.2.2 Verdict.NoMatch Verdict.NoMatch rfl

/-- C10: frame and channel counts are uint32_t values, so negative values
are unrepresentable; over that domain the precondition frame_count > 0 is
the same as frame_count ≠ 0, and accepting only one or two channels is the
same as excluding 0 and every value at least 3 (up to 2^32 − 1). -/
theorem uint32_feed_preconditions :
    ∀ n : Nat, n < uint32Bound →
      (frameCountOk n = true ↔ n ≠ 0) ∧
      (frameCountOk n = true ↔ 0 < n) ∧
      (channelsOk n = true ↔ ¬(n = 0 ∨ 3 ≤ n)) := by
  intro n _
  refine ⟨?_, ?_, ?_⟩
  · simp [frameCountOk, Nat.pos_iff_ne_zero]
  · simp [frameCountOk]
  · simp only [channelsOk, Bool.or_eq_true, beq_iff_eq]
    omega

/-- Witness for C10 at the concrete channel count 2. -/
theorem uint32_feed_preconditions_witness :
    (frameCountOk 2 = true ↔ 2 ≠ 0) ∧
    (frameCountOk 2 = true ↔ 0 < 2) ∧
    (channelsOk 2 = true ↔ ¬(2 = 0 ∨ 3 ≤ 2)) :=
  uint32_feed_preconditions 2 (by decide)

/-- C5: stop never fails (it is total and returns no error), from any
non-terminal state it moves the handle to Stopped, on a handle already
Stopped it changes nothing, and stop composed with stop is stop. -/
theorem stop_never_fails_and_idempotent :
    (∀ b : Bridge, b.st ≠ SessionState.Destroyed → (stop_core b).st = SessionState.Stopped) ∧
    (∀ b : Bridge, b.st = SessionState.Stopped → stop_core b = b) ∧
    (∀ b : Bridge, stop_core (stop_core b) = stop_core b) := by
  refine ⟨?_, ?_, ?_⟩
  · intro b h
    cases hst : b.st <;> simp [stop_core, hst]
    exact absurd hst h
  · intro b h
    cases b with
    | mk st ca em fi co cn fw =>
        cases h
        rfl
  · intro b
    cases b with
    | mk st ca em fi co cn fw =>
        cases st <;> rfl

/-- Witness for C5 on a concrete handle. -/
theorem stop_witness :
    (stop_core initBridge).st = SessionState.Stopped ∧
    stop_core (stop_core initBridge) = stop_core initBridge :=
  ⟨stop_never_fails_and_idempotent.1 initBridge (by decide),
    stop_never_fails_and_idempotent.2.2 initBridge⟩

/-- C4: the lifecycle follows the state machine
Created → Listening → Stopped → Listening → … → Destroyed: start succeeds
only from Created or Stopped and moves the handle to Listening, destroy
always yields the terminal Destroyed state, the Destroyed state persists
under every operation, and after destroy no operation is valid — stop and
destroy do nothing and start and feed fail. -/
theorem lifecycle_state_machine :
    (∀ (b : Bridge) (ok : Bool), (start_core b ok).2.1 = true →
        (b.st = SessionState.Created ∨ b.st = SessionState.Stopped) ∧
        (start_core b ok).1.st = SessionState.Listening) ∧
    (∀ b : Bridge, (destroy_core b).st = SessionState.Destroyed) ∧
    (∀ (b : Bridge) (op : Op), b.st = SessionState.Destroyed →
        (step b op).st = SessionState.Destroyed) ∧
    (∀ b : Bridge, b.st = SessionState.Destroyed →
        step b Op.stop = b ∧ step b Op.destroy = b ∧
        (∀ ok : Bool, step b (Op.start ok) = b ∧ (start_core b ok).2.1 = false) ∧
        (∀ (a : FeedArgs) (acc : Bool),
          step b (Op.feed a acc) = b ∧ (feed_core b a acc).2.1 = false)) := by
  refine ⟨?_, ?_, ?_, ?_⟩
  · intro b ok h
    cases hst : b.st <;> cases ok <;> simp_all [start_core]
  · intro b
    cases hst : b.st <;> simp [destroy_core, hst]
  · intro b op h
    cases op with
    | start ok => cases ok <;> simp [step, start_core, h]
    | feed a acc => simp [step, feed_core, h]
    | stop => simp [step, stop_core, h]
    | destroy => simp [step, destroy_core, h]
    | verdict i v =>
        simp only [step]
        unfold matcher_verdict
        split_ifs with h1 h2 <;> simp_all
  · intro b h
    refine ⟨?_, ?_, ?_, ?_⟩
    · simp [step, stop_core, h]
    · simp [step, destroy_core, h]
    · intro ok
      cases ok <;> simp [step, start_core, h]
    · intro a acc
      simp [step, feed_core, h]

/-- Witness for C4: a fresh handle starts into Listening, and a destroyed
handle absorbs a stop call. -/
theorem lifecycle_state_machine_witness :
    ((initBridge.st = SessionState.Created ∨ initBridge.st = SessionState.Stopped) ∧
      (start_core initBridge true).1.st = SessionState.Listening) ∧
    (step (destroy_core initBridge) Op.stop).st = SessionState.Destroyed ∧
    step (destroy_core initBridge) Op.stop = destroy_core initBridge :=
  ⟨lifecycle_state_machine.1 initBridge true rfl,
    lifecycle_state_machine.2.2.1 (destroy_core initBridge) Op.stop (by decide),
    (lifecycle_state_machine.2.2.2 (destroy_core initBridge) (by decide)).1⟩

/-- C6: a feed call whose channel count is not 1 or 2 (for instance 3)
fails, forwards nothing and leaves the handle unchanged; when the handle is
listening and the earlier buffer checks pass, the reported error is the
malformed-input message for the channel count. -/
theorem feed_rejects_bad_channel_count
    (b : Bridge) (a : FeedArgs) (acc : Bool)
    (hch : a.channels ≠ 1 ∧ a.channels ≠ 2) :
    (feed_core b a acc).2.1 = false ∧ (feed_core b a acc).1 = b ∧
    (b.st = SessionState.Listening → a.samples.isSome = true →
      frameCountOk a.frame_count = true →
      (feed_core b a acc).2.2 = some badChannelsMsg) := by
  have hok : channelsOk a.channels = false := by
    simp only [channelsOk, Bool.or_eq_false_iff, beq_eq_false_iff_ne, ne_eq]
    exact hch
  unfold feed_core
  by_cases hst : b.st = SessionState.Listening
  · rw [if_pos hst]
    by_cases hsam : a.samples.isSome = true
    · rw [if_pos hsam]
      by_cases hfc : frameCountOk a.frame_count = true
      · rw [if_pos hfc, if_neg (by simp [hok])]
        exact ⟨rfl, rfl, (fun _ _ _ => rfl)⟩
      · rw [if_neg hfc]
        exact ⟨rfl, rfl, (fun _ _ h2 => absurd h2 hfc)⟩
    · rw [if_neg hsam]
      exact ⟨rfl, rfl, (fun _ hs _ => absurd hs hsam)⟩
  · rw [if_neg hst]
    by_cases hd : b.st = SessionState.Destroyed
    · rw [if_pos hd]
      exact ⟨rfl, rfl, (fun h1 _ _ => absurd h1 hst)⟩
    · rw [if_neg hd]
      exact ⟨rfl, rfl, (fun h1 _ _ => absurd h1 hst)⟩

/-- Witness for C6: the three-channel buffer is rejected on a listening
handle with the malformed-input channel error, and nothing changes. -/
theorem feed_rejects_bad_channel_count_witness :
    (feed_core listeningBridge threeChannelArgs true).2.1 = false ∧
    (feed_core listeningBridge threeChannelArgs true).1 = listeningBridge ∧
    (feed_core listeningBridge threeChannelArgs true).2.2 = some badChannelsMsg :=
  ⟨(feed_rejects_bad_channel_count listeningBridge threeChannelArgs true (by decide)).1,
    (feed_rejects_bad_channel_count listeningBridge threeChannelArgs true (by decide)).2.1,
    (feed_rejects_bad_channel_count listeningBridge threeChannelArgs true (by decide)).2.2
      rfl rfl rfl⟩

/-- The failure convention holds for a successful result. -/
lemma errorConvention_ok (b : Bridge) : errorConvention (b, true, none) :=
  ⟨(fun _ => rfl), (fun h => nomatch h)⟩

/-- The failure convention holds for a failed result carrying a non-empty
message. -/
lemma errorConvention_fail (b : Bridge) (s : String) (hs : s ≠ "") :
    errorConvention (b, false, some s) :=
  ⟨(fun h => nomatch h), (fun _ => ⟨s, rfl, hs⟩)⟩

/-- start_core respects the failure convention. -/
lemma start_core_errorConvention (b : Bridge) (ok : Bool) :
    errorConvention (start_core b ok) := by
  unfold start_core
  cases hst : b.st <;> cases ok <;>
    first
      | exact errorConvention_ok _
      | exact errorConvention_fail _ _ (by decide)

/-- feed_core respects the failure convention. -/
lemma feed_core_errorConvention (b : Bridge) (a : FeedArgs) (acc : Bool) :
    errorConvention (feed_core b a acc) := by
  unfold feed_core
  by_cases hst : b.st = SessionState.Listening
  · rw [if_pos hst]
    by_cases hsam : a.samples.isSome = true
    · rw [if_pos hsam]
      by_cases hfc : frameCountOk a.frame_count = true
      · rw [if_pos hfc]
        by_cases hchn : channelsOk a.channels = true
        · rw [if_pos hchn]
          by_cases hr : rateOk a.sample_rate = true
          · rw [if_pos hr]
            cases acc
            · exact errorConvention_fail _ _ (by decide)
            · exact errorConvention_ok _
          · rw [if_neg hr]
            exact errorConvention_fail _ _ (by decide)
        · rw [if_neg hchn]
          exact errorConvention_fail _ _ (by decide)
      · rw [if_neg hfc]
        exact errorConvention_fail _ _ (by decide)
    · rw [if_neg hsam]
      exact errorConvention_fail _ _ (by decide)
  · rw [if_neg hst]
    by_cases hd : b.st = SessionState.Destroyed
    · rw [if_pos hd]
      exact errorConvention_fail _ _ (by decide)
    · rw [if_neg hd]
      exact errorConvention_fail _ _ (by decide)

/-- C7: each fallible operation — create, start, feed — leaves the error
output unset when it succeeds and, when it fails, populates it with a
non-null, non-empty string the caller owns. -/
theorem fallible_ops_error_strings :
    (∀ cb ok : Bool,
        ((shazam_bridge_create cb ok).1.isSome = true → (shazam_bridge_create cb ok).2 = none) ∧
        ((shazam_bridge_create cb ok).1 = none →
          ∃ s, (shazam_bridge_create cb ok).2 = some s ∧ s ≠ "")) ∧
    (∀ (hb : Option Bridge) (ok : Bool),
        ((shazam_bridge_start hb ok).2.1 = true → (shazam_bridge_start hb ok).2.2 = none) ∧
        ((shazam_bridge_start hb ok).2.1 = false →
          ∃ s, (shazam_bridge_start hb ok).2.2 = some s ∧ s ≠ "")) ∧
    (∀ (hb : Option Bridge) (a : FeedArgs) (acc : Bool),
        ((shazam_bridge_feed hb a acc).2.1 = true → (shazam_bridge_feed hb a acc).2.2 = none) ∧
        ((shazam_bridge_feed hb a acc).2.1 = false →
          ∃ s, (shazam_bridge_feed hb a acc).2.2 = some s ∧ s ≠ "")) := by
  refine ⟨?_, ?_, ?_⟩
  · intro cb ok
    cases cb <;> cases ok <;>
      first
        | exact ⟨(fun _ => rfl), (fun h => nomatch h)⟩
        | exact ⟨(fun h => nomatch h), (fun _ => ⟨_, rfl, by decide⟩)⟩
  · intro hb ok
    cases hb with
    | none => exact ⟨(fun h => nomatch h), (fun _ => ⟨_, rfl, by decide⟩)⟩
    | some b =>
        have h1 := start_core_errorConvention b ok
        exact ⟨(fun h2 => h1.1 h2), (fun h2 => h1.2 h2)⟩
  · intro hb a acc
    cases hb with
    | none => exact ⟨(fun h => nomatch h), (fun _ => ⟨_, rfl, by decide⟩)⟩
    | some b =>
        have h1 := feed_core_errorConvention b a acc
        exact ⟨(fun h2 => h1.1 h2), (fun h2 => h1.2 h2)⟩

/-- Witness for C7: a successful create leaves the error unset; a null
handle makes start and feed fail with a non-empty error string. -/
theorem fallible_ops_error_strings_witness :
    (shazam_bridge_create true true).2 = none ∧
    (∃ s, (shazam_bridge_start none true).2.2 = some s ∧ s ≠ "") ∧
    (∃ s, (shazam_bridge_feed (some initBridge) threeChannelArgs true).2.2 = some s ∧ s ≠ "") :=
  ⟨(fallible_ops_error_strings.1 true true).1 rfl,
    (fallible_ops_error_strings.2.1 none true).2 rfl,
    (fallible_ops_error_strings.2.2 (some initBridge) threeChannelArgs true).2 rfl⟩

/-- C3 as stated is false at a concrete input: a listening handle rejects
a feed call whose otherwise-valid buffer declares three channels, so
success of feed is not equivalent to being in the Listening state. -/
theorem feed_iff_listening_counterexample :
    listeningBridge.st = SessionState.Listening ∧
    (shazam_bridge_feed (some listeningBridge) threeChannelArgs true).2.1 = false :=
  ⟨rfl, rfl⟩

/-- C3 amended: for a well-formed buffer that the matcher accepts, a feed
call succeeds — returns true, sets no error, forwards the audio and leaves
the lifecycle state alone — exactly when the handle is Listening. -/
theorem feed_succeeds_iff_listening (b : Bridge) (a : FeedArgs)
    (hva : feedValid a = true) :
    ((feed_core b a true).2.1 = true ↔ b.st = SessionState.Listening) ∧
    (b.st = SessionState.Listening →
      (feed_core b a true).2.2 = none ∧
      (feed_core b a true).1.forwarded = a.samples.getD [] :: b.forwarded ∧
      (feed_core b a true).1.st = b.st) := by
  simp only [feedValid, Bool.and_eq_true] at hva
  obtain ⟨⟨⟨h1, h2⟩, h3⟩, h4⟩ := hva
  unfold feed_core
  by_cases hst : b.st = SessionState.Listening
  · rw [if_pos hst, if_pos h1, if_pos h2, if_pos h3, if_pos h4, if_pos rfl]
    exact ⟨⟨(fun _ => hst), (fun _ => rfl)⟩, (fun _ => ⟨rfl, rfl, rfl⟩)⟩
  · rw [if_neg hst]
    refine ⟨⟨?_, (fun hl => absurd hl hst)⟩, (fun hl => absurd hl hst)⟩
    intro hsucc
    by_cases hd : b.st = SessionState.Destroyed
    · rw [if_pos hd] at hsucc
      exact nomatch hsucc
    · rw [if_neg hd] at hsucc
      exact nomatch hsucc

/-- Witness for the amended C3 at a concrete listening handle and a
concrete valid one-channel buffer. -/
theorem feed_succeeds_iff_listening_witness :
    ((feed_core listeningBridge validArgs true).2.1 = true ↔
      listeningBridge.st = SessionState.Listening) ∧
    (listeningBridge.st = SessionState.Listening →
      (feed_core listeningBridge validArgs true).2.2 = none ∧
      (feed_core listeningBridge validArgs true).1.forwarded =
        validArgs.samples.getD [] :: listeningBridge.forwarded ∧
      (feed_core listeningBridge validArgs true).1.st = listeningBridge.st) :=
  feed_succeeds_iff_listening listeningBridge validArgs (by decide)

/-- The invariant holds of a fresh handle. -/
lemma bridgeInv_init : BridgeInv initBridge := by
  constructor <;> simp [initBridge]

/-- Opening a fresh attempt preserves the invariant: the new current
attempt is strictly newer than every cancelled one. -/
lemma bridgeInv_listen (b : Bridge) (h : BridgeInv b) :
    BridgeInv { b with st := SessionState.Listening, curAttempt := b.curAttempt + 1 } := by
  refine ⟨h.fired_eq, h.completed_sub, h.completed_nodup, ?_, ?_,
    h.cancelled_not_completed, h.fired_payload⟩
  · intro j hj
    exact Nat.le_succ_of_le (h.cancelled_le j hj)
  · intro j hj hc
    have h1 := h.cancelled_le j hj
    have h2 : b.curAttempt + 1 = j := hc.2
    omega

/-- start preserves the invariant. -/
lemma bridgeInv_start (b : Bridge) (ok : Bool) (h : BridgeInv b) :
    BridgeInv (start_core b ok).1 := by
  unfold start_core
  cases hst : b.st
  case Listening => exact h
  case Destroyed => exact h
  case Created =>
    cases ok
    · exact h
    · exact bridgeInv_listen b h
  case Stopped =>
    cases ok
    · exact h
    · exact bridgeInv_listen b h

/-- feed preserves the invariant: it only ever touches the forwarded
audio. -/
lemma bridgeInv_feed (b : Bridge) (a : FeedArgs) (acc : Bool) (h : BridgeInv b) :
    BridgeInv (feed_core b a acc).1 := by
  unfold feed_core
  split_ifs <;>
    first
      | exact h
      | exact ⟨h.fired_eq, h.completed_sub, h.completed_nodup, h.cancelled_le,
          h.cancelled_not_cur, h.cancelled_not_completed, h.fired_payload⟩

/-- stop preserves the invariant, recording a cancellation when the
current attempt still has no verdict. -/
lemma bridgeInv_stop (b : Bridge) (h : BridgeInv b) : BridgeInv (stop_core b) := by
  unfold stop_core
  cases hst : b.st
  case Destroyed => exact h
  case Created =>
    refine ⟨h.fired_eq, h.completed_sub, h.completed_nodup, h.cancelled_le, ?_,
      h.cancelled_not_completed, h.fired_payload⟩
    intro j hj hc
    exact nomatch hc.1
  case Stopped =>
    refine ⟨h.fired_eq, h.completed_sub, h.completed_nodup, h.cancelled_le, ?_,
      h.cancelled_not_completed, h.fired_payload⟩
    intro j hj hc
    exact nomatch hc.1
  case Listening =>
    by_cases hm : b.curAttempt ∈ b.emitted.map Prod.fst
    · rw [if_pos hm]
      refine ⟨h.fired_eq, h.completed_sub, h.completed_nodup, h.cancelled_le, ?_,
        h.cancelled_not_completed, h.fired_payload⟩
      intro j hj hc
      exact nomatch hc.1
    · rw [if_neg hm]
      refine ⟨h.fired_eq, h.completed_sub, h.completed_nodup, ?_, ?_, ?_, h.fired_payload⟩
      · intro j hj
        rcases List.mem_cons.mp hj with hj1 | hj2
        · subst hj1
          exact Nat.le_refl _
        · exact h.cancelled_le j hj2
      · intro j hj hc
        exact nomatch hc.1
      · intro j hj
        rcases List.mem_cons.mp hj with hj1 | hj2
        · subst hj1
          intro hco
          exact hm (h.completed_sub _ hco)
        · exact h.cancelled_not_completed j hj2

/-- destroy preserves the invariant, recording a cancellation when the
current attempt still has no verdict. -/
lemma bridgeInv_destroy (b : Bridge) (h : BridgeInv b) : BridgeInv (destroy_core b) := by
  unfold destroy_core
  cases hst : b.st
  case Destroyed => exact h
  case Created =>
    refine ⟨h.fired_eq, h.completed_sub, h.completed_nodup, h.cancelled_le, ?_,
      h.cancelled_not_completed, h.fired_payload⟩
    intro j hj hc
    exact nomatch hc.1
  case Stopped =>
    refine ⟨h.fired_eq, h.completed_sub, h.completed_nodup, h.cancelled_le, ?_,
      h.cancelled_not_completed, h.fired_payload⟩
    intro j hj hc
    exact nomatch hc.1
  case Listening =>
    by_cases hm : b.curAttempt ∈ b.emitted.map Prod.fst
    · rw [if_pos hm]
      refine ⟨h.fired_eq, h.completed_sub, h.completed_nodup, h.cancelled_le, ?_,
        h.cancelled_not_completed, h.fired_payload⟩
      intro j hj hc
      exact nomatch hc.1
    · rw [if_neg hm]
      refine ⟨h.fired_eq, h.completed_sub, h.completed_nodup, ?_, ?_, ?_, h.fired_payload⟩
      · intro j hj
        rcases List.mem_cons.mp hj with hj1 | hj2
        · subst hj1
          exact Nat.le_refl _
        · exact h.cancelled_le j hj2
      · intro j hj hc
        exact nomatch hc.1
      · intro j hj
        rcases List.mem_cons.mp hj with hj1 | hj2
        · subst hj1
          intro hco
          exact hm (h.completed_sub _ hco)
        · exact h.cancelled_not_completed j hj2

/-- A matcher verdict preserves the invariant: a new callback entry is
only appended for the current, still-listening, not-yet-answered attempt,
which is never a cancelled one. -/
lemma bridgeInv_verdict (b : Bridge) (i : Nat) (v : Verdict) (h : BridgeInv b) :
    BridgeInv (matcher_verdict b i v) := by
  unfold matcher_verdict
  split_ifs with hg hf
  · refine ⟨?_, ?_, ?_, h.cancelled_le, h.cancelled_not_cur, ?_, ?_⟩
    · simp [h.fired_eq]
    · intro j hj
      rcases List.mem_cons.mp hj with hj1 | hj2
      · subst hj1
        simp only [List.map_cons]
        exact List.mem_cons_self _ _
      · simp only [List.map_cons]
        exact List.mem_cons_of_mem _ (h.completed_sub j hj2)
    · exact List.nodup_cons.mpr
        ⟨(fun hco => hg.2.2 (h.completed_sub _ hco)), h.completed_nodup⟩
    · intro j hj hco
      rcases List.mem_cons.mp hco with hj1 | hj2
      · subst hj1
        exact h.cancelled_not_cur j hj ⟨hf.1, hf.2.symm⟩
      · exact h.cancelled_not_completed j hj hj2
    · intro p hp
      rcases List.mem_cons.mp hp with hp1 | hp2
      · subst hp1
        exact ⟨v, List.mem_cons_self _ _, rfl⟩
      · obtain ⟨w, hw1, hw2⟩ := h.fired_payload p hp2
        exact ⟨w, List.mem_cons_of_mem _ hw1, hw2⟩
  · refine ⟨h.fired_eq, ?_, h.completed_nodup, h.cancelled_le, h.cancelled_not_cur,
      h.cancelled_not_completed, ?_⟩
    · intro j hj
      simp only [List.map_cons]
      exact List.mem_cons_of_mem _ (h.completed_sub j hj)
    · intro p hp
      obtain ⟨w, hw1, hw2⟩ := h.fired_payload p hp
      exact ⟨w, List.mem_cons_of_mem _ hw1, hw2⟩
  · exact h

/-- Every operation preserves the invariant. -/
lemma bridgeInv_step (b : Bridge) (op : Op) (h : BridgeInv b) : BridgeInv (step b op) := by
  cases op with
  | start ok => exact bridgeInv_start b ok h
  | feed a acc => exact bridgeInv_feed b a acc h
  | stop => exact bridgeInv_stop b h
  | destroy => exact bridgeInv_destroy b h
  | verdict i v => exact bridgeInv_verdict b i v h

/-- The invariant holds along any run. -/
lemma bridgeInv_foldl : ∀ (ops : List Op) (b : Bridge), BridgeInv b → BridgeInv (ops.foldl step b)
  | [], _, h => h
  | op :: ops, b, h => bridgeInv_foldl ops (step b op) (bridgeInv_step b op h)

/-- Every reachable handle satisfies the invariant. -/
lemma bridgeInv_run (ops : List Op) : BridgeInv (run ops) :=
  bridgeInv_foldl ops initBridge bridgeInv_init

/-- No operation ever removes an attempt from the cancelled list. -/
lemma cancelled_mono_step (b : Bridge) (op : Op) :
    ∀ j ∈ b.cancelled, j ∈ (step b op).cancelled := by
  intro j hj
  cases op with
  | start ok =>
      simp only [step]
      unfold start_core
      cases hst : b.st <;> cases ok <;> exact hj
  | feed a acc =>
      simp only [step]
      unfold feed_core
      split_ifs <;> exact hj
  | stop =>
      simp only [step]
      unfold stop_core
      cases hst : b.st
      case Listening =>
        by_cases hm : b.curAttempt ∈ b.emitted.map Prod.fst
        · rw [if_pos hm]
          exact hj
        · rw [if_neg hm]
          exact List.mem_cons_of_mem _ hj
      all_goals exact hj
  | destroy =>
      simp only [step]
      unfold destroy_core
      cases hst : b.st
      case Listening =>
        by_cases hm : b.curAttempt ∈ b.emitted.map Prod.fst
        · rw [if_pos hm]
          exact hj
        · rw [if_neg hm]
          exact List.mem_cons_of_mem _ hj
      all_goals exact hj
  | verdict i v =>
      simp only [step]
      unfold matcher_verdict
      split_ifs <;> exact hj

/-- Cancellation persists along any continuation of a run. -/
lemma cancelled_mono_foldl : ∀ (ops : List Op) (b : Bridge) (j : Nat),
    j ∈ b.cancelled → j ∈ (ops.foldl step b).cancelled
  | [], _, _, h => h
  | op :: ops, b, j, h => cancelled_mono_foldl ops (step b op) j (cancelled_mono_step b op j h)

/-- C1: along every run, an attempt that completed (its verdict arrived
while the session was still listening on it) has exactly one callback
invocation in the log — never zero, never more than one — and every logged
invocation carries the tagged payload of the verdict the matcher emitted
for that attempt. -/
theorem callback_fires_exactly_once_per_completed_attempt :
    ∀ (ops : List Op) (i : Nat),
      (firedCountFor (run ops) i = if i ∈ (run ops).completed then 1 else 0) ∧
      (∀ p ∈ (run ops).fired, ∃ v, (p.1, v) ∈ (run ops).emitted ∧ p.2 = payloadOf v) := by
  intro ops i
  have h := bridgeInv_run ops
  refine ⟨?_, h.fired_payload⟩
  unfold firedCountFor
  rw [h.fired_eq]
  by_cases hm : i ∈ (run ops).completed
  · rw [if_pos hm]
    exact List.count_eq_one_of_mem h.completed_nodup hm
  · rw [if_neg hm]
    exact List.count_eq_zero.mpr hm

/-- Witness for C1: in a run where attempt 1 completes with an Error
verdict, the single logged callback carries that verdict's payload. -/
theorem callback_fires_exactly_once_witness :
    ∃ v, ((1 : Nat), v) ∈ (run demoCompleteTrace).emitted ∧
      (((1 : Nat), payloadOf (Verdict.Error "recognition failed internally")) :
        Nat × CallbackInvocation).2 = payloadOf v :=
  (callback_fires_exactly_once_per_completed_attempt demoCompleteTrace 1).2
    (1, payloadOf (Verdict.Error "recognition failed internally")) (by decide)

/-- C2: once stop or destroy cancels an attempt before its verdict
arrived, no callback for that attempt ever appears in the log, however the
run continues — the late verdict is suppressed. -/
theorem cancelled_attempt_never_fires (ops ext : List Op) (j : Nat)
    (hc : j ∈ (run ops).cancelled) :
    firedCountFor (run (ops ++ ext)) j = 0 := by
  have hmono : j ∈ (run (ops ++ ext)).cancelled := by
    unfold run
    rw [List.foldl_append]
    exact cancelled_mono_foldl ext (List.foldl step initBridge ops) j hc
  have h := bridgeInv_run (ops ++ ext)
  unfold firedCountFor
  rw [h.fired_eq]
  exact List.count_eq_zero.mpr (h.cancelled_not_completed j hmono)

/-- Witness for C2: stop before the verdict of attempt 1; the late
NoMatch verdict afterwards produces no callback. -/
theorem cancelled_attempt_never_fires_witness :
    firedCountFor (run (demoCancelTrace ++ demoLateVerdict)) 1 = 0 :=
  cancelled_attempt_never_fires demoCancelTrace demoLateVerdict 1 (by decide)
